import Mathlib

/-!
# Credentialed pass-through proxies (`backend-proxy-example/api`)

A shallow embedding of the three serverless handlers `audd.js`, `gemini.js`
and `spotify-token.js`.  A handler is a function of the request (method and
parsed body), of the process environment and of the outcome of the single
upstream `fetch`; it yields the response that was sent together with the
outbound requests and the console output it produced.
-/

namespace Proxy

/-! ## JavaScript values -/

/-- A number value, given by the decimal decomposition on which
`Number::toString` is defined: `finite negative s n` is the number of sign
`negative` and magnitude `0.d₁…dₖ × 10^n`, where `d₁…dₖ` are the decimal
digits of `s` up to its last non-zero digit, the shortest digit string that
denotes the number (`s = 0` for either zero); `infinite` is what a literal
beyond the double range parses to.  A parsed number is never `NaN`. -/
inductive JsNum where
  | finite (negative : Bool) (s : Nat) (n : Int) : JsNum
  | infinite (negative : Bool) : JsNum

/-- Values a parsed request body (or an upstream JSON document) is made of.
`undefined` is what reading an absent property gives.  Object fields are kept
in insertion order, and a name is read at its first occurrence. -/
inductive JsVal where
  | undefined : JsVal
  | null : JsVal
  | bool (b : Bool) : JsVal
  | num (x : JsNum) : JsVal
  | str (s : String) : JsVal
  | arr (items : List JsVal) : JsVal
  | obj (fields : List (String × JsVal)) : JsVal

/-- An exception value: the `name` and `message` of the thrown `Error`. -/
structure JsError where
  name : String
  message : String
deriving DecidableEq

/-- The outcome of a step that may throw. -/
inductive Thrown (α : Type) where
  | ok (a : α) : Thrown α
  | threw (e : JsError) : Thrown α

/-- The decimal digits of a positive number up to its last non-zero digit. -/
def significantDigits (s : Nat) : List Char :=
  ((Nat.toDigits 10 s).reverse.dropWhile fun c => c = '0').reverse

/-- The operation `Number::toString` (radix 10): `Infinity`, `0`, and for a
non-zero finite number with the `k` digits `d₁…dₖ` and the decimal exponent
`n`: the digits padded with zeros when `k ≤ n ≤ 21`, the digits with a point
after the first `n` when `0 < n ≤ 21`, `0.` and `-n` zeros before the digits
when `-6 < n ≤ 0`, and the exponent form `d[.ddd]e±x` with `x = |n - 1|`
otherwise; a negative number has `-` in front. -/
def numberToString : JsNum → String
  | .infinite negative => if negative then "-Infinity" else "Infinity"
  | .finite negative s n =>
    if s = 0 then "0"
    else
      let digits := significantDigits s
      let k : Nat := digits.length
      let exponent : List Char :=
        (if n - 1 < 0 then ['-'] else ['+']) ++ Nat.toDigits 10 (n - 1).natAbs
      let magnitude : List Char :=
        if (k : Int) ≤ n ∧ n ≤ 21 then digits ++ List.replicate (n.toNat - k) '0'
        else if 0 < n ∧ n ≤ 21 then digits.take n.toNat ++ ['.'] ++ digits.drop n.toNat
        else if -6 < n ∧ n ≤ 0 then ['0', '.'] ++ List.replicate (-n).toNat '0' ++ digits
        else if k = 1 then digits ++ ['e'] ++ exponent
        else digits.take 1 ++ ['.'] ++ digits.drop 1 ++ ['e'] ++ exponent
      String.mk ((if negative then ['-'] else []) ++ magnitude)

/-- Truthiness, as tested by `!x` and `if (x)`: `undefined`, `null`, `false`,
zero and the empty string are falsy, every array and object is truthy. -/
def truthy : JsVal → Bool
  | .undefined => false
  | .null => false
  | .bool b => b
  | .num (.finite _ s _) => s != 0
  | .num (.infinite _) => true
  | .str s => s != ""
  | .arr _ => true
  | .obj _ => true

/-- Strict equality `v === 'lit'` against a string literal. -/
def strictEqStr : JsVal → String → Bool
  | .str s, lit => s == lit
  | _, _ => false

/-- Own-property lookup in a parsed object. -/
def lookup (name : String) : List (String × JsVal) → Option JsVal
  | [] => none
  | (k, v) :: rest => if k = name then some v else lookup name rest

/-- Whether a parsed object has an own property of that name. -/
def hasOwn (name : String) (fields : List (String × JsVal)) : Bool :=
  (lookup name fields).isSome

/-- The `TypeError` of converting an object to a primitive when neither its
`toString` nor its `valueOf` yields one. -/
def toPrimitiveError : JsError :=
  ⟨"TypeError", "Cannot convert object to primitive value"⟩

mutual
/-- The abstract operation `ToString` on a parsed value, used by template
literals and by `URLSearchParams`.  An array is joined with commas
(`undefined` and `null` entries give the empty string).  An object gives
`[object Object]` through the inherited `Object.prototype.toString`; when it
has an own `toString` property, that property is not callable (a parsed value
never is), `valueOf` gives back the object, and the conversion throws. -/
def toJsString : JsVal → Thrown String
  | .undefined => .ok "undefined"
  | .null => .ok "null"
  | .bool b => .ok (if b then "true" else "false")
  | .num x => .ok (numberToString x)
  | .str s => .ok s
  | .arr items => joinItems items
  | .obj fields => if hasOwn "toString" fields then .threw toPrimitiveError else .ok "[object Object]"

/-- The elements of `Array.prototype.join(',')`, left to right. -/
def joinItems : List JsVal → Thrown String
  | [] => .ok ""
  | v :: rest =>
    match (match v with
           | .undefined => Thrown.ok ""
           | .null => Thrown.ok ""
           | w => toJsString w) with
    | .threw e => .threw e
    | .ok s =>
      match rest with
      | [] => .ok s
      | _ :: _ =>
        match joinItems rest with
        | .threw e => .threw e
        | .ok t => .ok (s ++ "," ++ t)
end

/-- The `TypeError` of destructuring `const { prop, ... } = req.body` when
the body is `undefined` or `null` (V8 wording). -/
def destructureError (prop : String) (what : String) : JsError :=
  ⟨"TypeError", "Cannot destructure property '" ++ prop ++ "' of 'req.body' as it is " ++ what ++ "."⟩

/-- The coercibility check at the start of `const { prop, ... } = req.body`. -/
def destructure (prop : String) : JsVal → Thrown Unit
  | .undefined => .threw (destructureError prop "undefined")
  | .null => .threw (destructureError prop "null")
  | _ => .ok ()

/-- Reading `body.name` from a destructurable body.  None of the names the
handlers read is defined on a built-in prototype, so only an own property of
a parsed object gives anything but `undefined`. -/
def getProp (name : String) : JsVal → JsVal
  | .obj fields => (lookup name fields).getD .undefined
  | _ => .undefined

/-- The JSON object `{ error: msg }`. -/
def errorBody (msg : String) : JsVal :=
  .obj [("error", .str msg)]

/-! ## `URLSearchParams` -/

/-- Upper-case hexadecimal digit. -/
def hexDigit (n : Nat) : Char :=
  "0123456789ABCDEF".toList.getD n '0'

/-- UTF-8 bytes of a code point. -/
def utf8Bytes (c : Nat) : List Nat :=
  if c < 0x80 then [c]
  else if c < 0x800 then [0xC0 + c / 64, 0x80 + c % 64]
  else if c < 0x10000 then [0xE0 + c / 4096, 0x80 + c / 64 % 64, 0x80 + c % 64]
  else [0xF0 + c / 262144, 0x80 + c / 4096 % 64, 0x80 + c / 64 % 64, 0x80 + c % 64]

/-- The `application/x-www-form-urlencoded` byte serializer: a space becomes
`+`, ASCII alphanumerics and `*-._` are kept, any other byte is `%XX`. -/
def encodeByte (b : Nat) : List Char :=
  if b = 0x20 then ['+']
  else if b = 0x2A ∨ b = 0x2D ∨ b = 0x2E ∨ (0x30 ≤ b ∧ b ≤ 0x39) ∨ (0x41 ≤ b ∧ b ≤ 0x5A)
      ∨ b = 0x5F ∨ (0x61 ≤ b ∧ b ≤ 0x7A) then [Char.ofNat b]
  else ['%', hexDigit (b / 16), hexDigit (b % 16)]

/-- Form-urlencoding of one name or value. -/
def formEncode (s : String) : String :=
  String.mk (s.toList.flatMap fun c => (utf8Bytes c.toNat).flatMap encodeByte)

/-- The result of `URLSearchParams.prototype.toString()`: `name=value` pairs
joined by `&`, in insertion order. -/
def serializePairs : List (String × String) → String
  | [] => ""
  | [(k, v)] => formEncode k ++ "=" ++ formEncode v
  | (k, v) :: rest => formEncode k ++ "=" ++ formEncode v ++ "&" ++ serializePairs rest

/-- The constructor `new URLSearchParams({ k: v, ... })`: every value is
converted with `ToString`, in insertion order; a failing conversion throws. -/
def urlSearchParams : List (String × JsVal) → Thrown (List (String × String))
  | [] => .ok []
  | (k, v) :: rest =>
    match toJsString v with
    | .threw e => .threw e
    | .ok s =>
      match urlSearchParams rest with
      | .threw e => .threw e
      | .ok ps => .ok ((k, s) :: ps)

/-! ## Requests, effects, results -/

/-- The incoming request: `req.method` and the parsed `req.body`. -/
structure Req where
  method : String
  body : JsVal

/-- The four variables of `process.env` the handlers read; `none` is an
unset variable. -/
structure Env where
  AUDD_API_KEY : Option String
  GEMINI_API_KEY : Option String
  SPOTIFY_CLIENT_ID : Option String
  SPOTIFY_CLIENT_SECRET : Option String

/-- Body of an outbound request: a multipart form (fields as appended), the
text `JSON.stringify` gives for a value, or a literal string. -/
inductive OutboundBody where
  | formData (fields : List (String × JsVal)) : OutboundBody
  | json (v : JsVal) : OutboundBody
  | text (s : String) : OutboundBody

/-- One call of `fetch`. -/
structure OutboundRequest where
  url : String
  method : String
  headers : List (String × String)
  body : OutboundBody

/-- What the single upstream call gives: `fetch` rejects with an exception,
or it resolves to a response with a status whose `json()` gives a value or
rejects with an exception.  The exception is whatever the fetch library
builds; node-fetch builds its message from the URL of the request (see
`fetchError`). -/
inductive UpstreamOutcome where
  | failed (e : JsError) : UpstreamOutcome
  | responded (status : Nat) (json : Thrown JsVal) : UpstreamOutcome

/-- The `FetchError` with which the `fetch` of node-fetch rejects when the
request to `url` fails for the system reason `reason`: the message names the
URL in full, query string included. -/
def fetchError (url reason : String) : JsError :=
  ⟨"FetchError", "request to " ++ url ++ " failed, reason: " ++ reason⟩

/-- The property `response.ok` of node-fetch: a status in 200..299. -/
def responseOk (status : Nat) : Bool :=
  200 ≤ status && status < 300

/-- One argument of a console call. -/
inductive LogArg where
  | text (s : String) : LogArg
  | value (v : JsVal) : LogArg
  | error (e : JsError) : LogArg

/-- One call of `console.log` (`isError = false`) or `console.error`. -/
structure LogEntry where
  isError : Bool
  args : List LogArg

/-- How the `try` block ends: with a response sent (`payload = none` for
`res.end()` without a body), or with an exception for the `catch`. -/
inductive Completion where
  | sent (status : Nat) (payload : Option JsVal) : Completion
  | threw (e : JsError) : Completion

/-- A run of a `try` block: how it ended, the outbound requests issued and
the console calls made, both oldest first. -/
structure Attempt where
  completion : Completion
  outbound : List OutboundRequest
  logs : List LogEntry

/-- A complete invocation: the response sent and the effects produced. -/
structure Result where
  status : Nat
  payload : Option JsVal
  outbound : List OutboundRequest
  logs : List LogEntry

/-- A response `res.status(status).json(body)` sent before any effect. -/
def reply (status : Nat) (body : JsVal) : Result :=
  ⟨status, some body, [], []⟩

/-! ## `api/audd.js` -/

/-- The call `formData.append(name, value)` of the form-data package on the
truthy parsed value the handler passes: a string (or `true`) is queued as it
is and a number as its string; an array is refused with `Arrays are not supported.`;
an object is taken for a stream and fails on its missing `on` method.  Both
failures are thrown by `append` itself. -/
def formDataAppend : JsVal → Thrown JsVal
  | .num x => .ok (.str (numberToString x))
  | .arr _ => .threw ⟨"Error", "Arrays are not supported."⟩
  | .obj _ => .threw ⟨"TypeError", "source.on is not a function"⟩
  | v => .ok v

/-- The `try` block of `audd.js` (lines 25-42), entered with the configured
key. -/
def auddTry (AUDD_API_KEY : String) (body : JsVal) (upstream : UpstreamOutcome) : Attempt :=
  match destructure "audio" body with
  | .threw e => ⟨.threw e, [], []⟩
  | .ok _ =>
    let audio := getProp "audio" body
    if !truthy audio then
      ⟨.sent 400 (some (errorBody "Audio data is required")), [], []⟩
    else
      match formDataAppend audio with
      | .threw e => ⟨.threw e, [], []⟩
      | .ok appended =>
        let formData := [("api_token", JsVal.str AUDD_API_KEY), ("audio", appended)]
        let call : OutboundRequest := ⟨"https://api.audd.io/", "POST", [], .formData formData⟩
        match upstream with
        | .failed e => ⟨.threw e, [call], []⟩
        | .responded _ (.threw e) => ⟨.threw e, [call], []⟩
        | .responded _ (.ok data) => ⟨.sent 200 (some data), [call], []⟩

/-- The handler exported by `audd.js`. -/
def audd (req : Req) (env : Env) (upstream : UpstreamOutcome) : Result :=
  if req.method ≠ "POST" then
    reply 405 (errorBody "Method not allowed")
  else
    match env.AUDD_API_KEY with
    | none => reply 500 (errorBody "API key not configured")
    | some AUDD_API_KEY =>
      if AUDD_API_KEY = "" then
        reply 500 (errorBody "API key not configured")
      else
        let run := auddTry AUDD_API_KEY req.body upstream
        match run.completion with
        | .sent status payload => ⟨status, payload, run.outbound, run.logs⟩
        | .threw error =>
          ⟨500, some (errorBody "Failed to process request"), run.outbound,
            run.logs ++ [⟨true, [.text "AUDD API Error:", .error error]⟩]⟩

/-! ## `api/gemini.js` -/

/-- The `try` block of `gemini.js` (lines 32-57).  The key goes into the URL
of the request, which node-fetch names in the message of the error it rejects
with (`fetchError`). -/
def geminiTry (GEMINI_API_KEY : String) (body : JsVal) (upstream : UpstreamOutcome) : Attempt :=
  match destructure "prompt" body with
  | .threw e => ⟨.threw e, [], []⟩
  | .ok _ =>
    let prompt := getProp "prompt" body
    if !truthy prompt then
      ⟨.sent 400 (some (errorBody "Prompt is required")), [], []⟩
    else
      let call : OutboundRequest :=
        ⟨"https://generativelanguage.googleapis.com/v1/models/gemini-pro:generateContent?key="
            ++ GEMINI_API_KEY,
          "POST",
          [("Content-Type", "application/json")],
          .json (.obj [("contents", .arr [.obj [("parts", .arr [.obj [("text", prompt)]])]])])⟩
      match upstream with
      | .failed e => ⟨.threw e, [call], []⟩
      | .responded _ (.threw e) => ⟨.threw e, [call], []⟩
      | .responded _ (.ok data) => ⟨.sent 200 (some data), [call], []⟩

/-- The handler exported by `gemini.js`. -/
def gemini (req : Req) (env : Env) (upstream : UpstreamOutcome) : Result :=
  if req.method = "OPTIONS" then
    ⟨200, none, [], []⟩
  else if req.method ≠ "POST" then
    reply 405 (errorBody "Method not allowed")
  else
    match env.GEMINI_API_KEY with
    | none => reply 500 (errorBody "API key not configured")
    | some GEMINI_API_KEY =>
      if GEMINI_API_KEY = "" then
        reply 500 (errorBody "API key not configured")
      else
        let run := geminiTry GEMINI_API_KEY req.body upstream
        match run.completion with
        | .sent status payload => ⟨status, payload, run.outbound, run.logs⟩
        | .threw error =>
          ⟨500, some (errorBody "Failed to process request"), run.outbound,
            run.logs ++ [⟨true, [.text "Gemini API Error:", .error error]⟩]⟩

/-! ## `api/spotify-token.js` -/

/-- Lines 97-115 of `spotify-token.js`: the upstream call with the built
`requestBody` and the relay of its answer.  `logged` is the console output of
the branch that built the body. -/
def spotifyUpstream (requestBody : List (String × String)) (logged : List LogEntry)
    (upstream : UpstreamOutcome) : Attempt :=
  let call : OutboundRequest :=
    ⟨"https://accounts.spotify.com/api/token", "POST",
      [("Content-Type", "application/x-www-form-urlencoded")],
      .text (serializePairs requestBody)⟩
  match upstream with
  | .failed e => ⟨.threw e, [call], logged⟩
  | .responded _ (.threw e) => ⟨.threw e, [call], logged⟩
  | .responded status (.ok data) =>
    if responseOk status then
      ⟨.sent 200 (some data), [call],
        logged ++ [⟨false, [.text "Spotify token operation successful"]⟩]⟩
    else
      ⟨.sent status (some data), [call],
        logged ++ [⟨true, [.text "Spotify token operation failed:", .value data]⟩]⟩

/-- The `try` block of `spotify-token.js` (lines 47-115). -/
def spotifyTokenTry (SPOTIFY_CLIENT_ID SPOTIFY_CLIENT_SECRET : String) (body : JsVal)
    (upstream : UpstreamOutcome) : Attempt :=
  match destructure "grant_type" body with
  | .threw e => ⟨.threw e, [], []⟩
  | .ok _ =>
    let grant_type := getProp "grant_type" body
    let code := getProp "code" body
    let redirect_uri := getProp "redirect_uri" body
    let code_verifier := getProp "code_verifier" body
    let refresh_token := getProp "refresh_token" body
    if !truthy grant_type then
      ⟨.sent 400 (some (errorBody "grant_type is required")), [], []⟩
    else if strictEqStr grant_type "authorization_code" then
      if !truthy code || !truthy redirect_uri || !truthy code_verifier then
        ⟨.sent 400 (some (errorBody
          "code, redirect_uri, and code_verifier are required for authorization_code grant")),
          [], []⟩
      else
        match urlSearchParams [
            ("grant_type", .str "authorization_code"),
            ("code", code),
            ("redirect_uri", redirect_uri),
            ("client_id", .str SPOTIFY_CLIENT_ID),
            ("client_secret", .str SPOTIFY_CLIENT_SECRET),
            ("code_verifier", code_verifier)] with
        | .threw e => ⟨.threw e, [], []⟩
        | .ok requestBody =>
          spotifyUpstream requestBody
            [⟨false, [.text "Processing authorization code exchange"]⟩] upstream
    else if strictEqStr grant_type "refresh_token" then
      if !truthy refresh_token then
        ⟨.sent 400 (some (errorBody "refresh_token is required for refresh_token grant")),
          [], []⟩
      else
        match urlSearchParams [
            ("grant_type", .str "refresh_token"),
            ("refresh_token", refresh_token),
            ("client_id", .str SPOTIFY_CLIENT_ID),
            ("client_secret", .str SPOTIFY_CLIENT_SECRET)] with
        | .threw e => ⟨.threw e, [], []⟩
        | .ok requestBody =>
          spotifyUpstream requestBody [⟨false, [.text "Processing token refresh"]⟩] upstream
    else
      match toJsString grant_type with
      | .threw e => ⟨.threw e, [], []⟩
      | .ok shown => ⟨.sent 400 (some (errorBody ("Unsupported grant_type: " ++ shown))), [], []⟩

/-- The handler exported by `spotify-token.js`. -/
def spotifyToken (req : Req) (env : Env) (upstream : UpstreamOutcome) : Result :=
  if req.method = "OPTIONS" then
    ⟨200, none, [], []⟩
  else if req.method ≠ "POST" then
    reply 405 (errorBody "Method not allowed")
  else
    let notConfigured : Result :=
      ⟨500, some (errorBody "Spotify credentials not configured"), [],
        [⟨true, [.text "Spotify credentials not configured"]⟩]⟩
    match env.SPOTIFY_CLIENT_ID, env.SPOTIFY_CLIENT_SECRET with
    | some SPOTIFY_CLIENT_ID, some SPOTIFY_CLIENT_SECRET =>
      if SPOTIFY_CLIENT_ID = "" ∨ SPOTIFY_CLIENT_SECRET = "" then
        notConfigured
      else
        let run := spotifyTokenTry SPOTIFY_CLIENT_ID SPOTIFY_CLIENT_SECRET req.body upstream
        match run.completion with
        | .sent status payload => ⟨status, payload, run.outbound, run.logs⟩
        | .threw error =>
          ⟨500,
            some (.obj [("error", .str "Internal server error"), ("message", .str error.message)]),
            run.outbound,
            run.logs ++ [⟨true, [.text "Error in Spotify token proxy:", .error error]⟩]⟩
    | _, _ => notConfigured

/-! ## The three proxies together -/

/-- The proxy handlers of the repository. -/
inductive Handler where
  | audd : Handler
  | gemini : Handler
  | spotifyToken : Handler
deriving DecidableEq

/-- Invocation of a handler. -/
def Handler.run : Handler → Req → Env → UpstreamOutcome → Result
  | .audd => Proxy.audd
  | .gemini => Proxy.gemini
  | .spotifyToken => Proxy.spotifyToken

/-! ## Vocabulary of the properties -/

/-- A configuration variable that is unset, or set to the empty string. -/
def absentOrEmpty (v : Option String) : Prop :=
  v = none ∨ v = some ""

instance (v : Option String) : Decidable (absentOrEmpty v) := by
  unfold absentOrEmpty; infer_instance

/-- A secret the handler requires is absent or empty. -/
def Handler.secretMissing : Handler → Env → Prop
  | .audd, env => absentOrEmpty env.AUDD_API_KEY
  | .gemini, env => absentOrEmpty env.GEMINI_API_KEY
  | .spotifyToken, env =>
    absentOrEmpty env.SPOTIFY_CLIENT_ID ∨ absentOrEmpty env.SPOTIFY_CLIENT_SECRET

instance (h : Handler) (env : Env) : Decidable (h.secretMissing env) := by
  cases h <;> unfold Handler.secretMissing <;> infer_instance

/-- Every secret the handler requires is set to a non-empty string. -/
def Handler.configured (h : Handler) (env : Env) : Prop :=
  ¬ h.secretMissing env

instance (h : Handler) (env : Env) : Decidable (h.configured env) := by
  unfold Handler.configured; infer_instance

/-- The fixed message of the configuration error of each handler. -/
def Handler.configError : Handler → String
  | .audd => "API key not configured"
  | .gemini => "API key not configured"
  | .spotifyToken => "Spotify credentials not configured"

/-- The generic body each handler answers an exception with. -/
def Handler.internalError : Handler → JsError → JsVal
  | .audd, _ => errorBody "Failed to process request"
  | .gemini, _ => errorBody "Failed to process request"
  | .spotifyToken, e =>
    .obj [("error", .str "Internal server error"), ("message", .str e.message)]

/-- The first name of the destructuring pattern each handler applies to the
body. -/
def Handler.firstField : Handler → String
  | .audd => "audio"
  | .gemini => "prompt"
  | .spotifyToken => "grant_type"

/-- A body field that is absent, or present with a falsy value. -/
def missing (name : String) (fields : List (String × JsVal)) : Prop :=
  match lookup name fields with
  | none => True
  | some v => truthy v = false

instance (name : String) (fields : List (String × JsVal)) : Decidable (missing name fields) := by
  unfold missing; split <;> infer_instance

/-- A body field present as the non-empty string `s`. -/
def textField (name : String) (fields : List (String × JsVal)) (s : String) : Prop :=
  lookup name fields = some (.str s) ∧ s ≠ ""

/-- The two token grants, with their fields. -/
inductive Grant where
  | authorizationCode (code redirect_uri code_verifier : String) : Grant
  | refreshToken (refresh_token : String) : Grant

/-- The body fields name the grant and carry each of its fields as a
non-empty string. -/
def Grant.carriedBy : Grant → List (String × JsVal) → Prop
  | .authorizationCode c u v, fields =>
    lookup "grant_type" fields = some (.str "authorization_code") ∧
      textField "code" fields c ∧ textField "redirect_uri" fields u ∧
      textField "code_verifier" fields v
  | .refreshToken r, fields =>
    lookup "grant_type" fields = some (.str "refresh_token") ∧
      textField "refresh_token" fields r

/-- The name-value pairs of the token request of a grant, for client id `I`
and client secret `S`. -/
def Grant.pairs (I S : String) : Grant → List (String × String)
  | .authorizationCode c u v =>
    [("grant_type", "authorization_code"), ("code", c), ("redirect_uri", u),
      ("client_id", I), ("client_secret", S), ("code_verifier", v)]
  | .refreshToken r =>
    [("grant_type", "refresh_token"), ("refresh_token", r),
      ("client_id", I), ("client_secret", S)]

/-- The console line of the branch that builds the body of a grant. -/
def Grant.logLine : Grant → String
  | .authorizationCode _ _ _ => "Processing authorization code exchange"
  | .refreshToken _ => "Processing token refresh"

/-- A body field present with a truthy value whose conversion to a string
gives `s`; a non-empty string is one, and converts to itself. -/
def shownField (name : String) (fields : List (String × JsVal)) (s : String) : Prop :=
  ∃ v, lookup name fields = some v ∧ truthy v = true ∧ toJsString v = .ok s

/-- The body fields name the grant and carry each of its fields as a truthy
value that converts to the string the grant has for it. -/
def Grant.sentBy : Grant → List (String × JsVal) → Prop
  | .authorizationCode c u v, fields =>
    lookup "grant_type" fields = some (.str "authorization_code") ∧
      shownField "code" fields c ∧ shownField "redirect_uri" fields u ∧
      shownField "code_verifier" fields v
  | .refreshToken r, fields =>
    lookup "grant_type" fields = some (.str "refresh_token") ∧
      shownField "refresh_token" fields r

/-- Value of a hexadecimal digit. -/
def unhex (c : Char) : Option Nat :=
  if 0x30 ≤ c.toNat ∧ c.toNat ≤ 0x39 then some (c.toNat - 0x30)
  else if 0x41 ≤ c.toNat ∧ c.toNat ≤ 0x46 then some (c.toNat - 0x41 + 10)
  else if 0x61 ≤ c.toNat ∧ c.toNat ≤ 0x66 then some (c.toNat - 0x61 + 10)
  else none

/-- The byte two leading hexadecimal digits stand for, if the text starts
with two. -/
def hexPair : List Char → Option Nat
  | a :: b :: _ =>
    match unhex a, unhex b with
    | some x, some y => some (16 * x + y)
    | _, _ => none
  | _ => none

/-- The bytes a form-urlencoded text stands for, after `skip` characters
that belong to an escape already read: `+` is a space, `%XX` is the byte `XX`
(its two digits are then skipped), any other character stands for itself. -/
def percentDecodeFrom : Nat → List Char → List Nat
  | _, [] => []
  | skip + 1, _ :: rest => percentDecodeFrom skip rest
  | 0, c :: rest =>
    if c = '+' then 0x20 :: percentDecodeFrom 0 rest
    else if c = '%' then
      match hexPair rest with
      | some byte => byte :: percentDecodeFrom 2 rest
      | none => 0x25 :: percentDecodeFrom 0 rest
    else utf8Bytes c.toNat ++ percentDecodeFrom 0 rest

/-- The bytes a form-urlencoded name or value stands for. -/
def percentDecode (text : List Char) : List Nat :=
  percentDecodeFrom 0 text

/-- The text of UTF-8 bytes, after `skip` continuation bytes that belong to
a character already read.  A leading byte below `0x80` is a character of its
own; one below `0xE0`, `0xF0`, or above, takes one, two or three continuation
bytes, each giving its low six bits (a continuation byte missing at the end
of the text gives none). -/
def utf8DecodeFrom : Nat → List Nat → List Char
  | _, [] => []
  | skip + 1, _ :: rest => utf8DecodeFrom skip rest
  | 0, b0 :: rest =>
    if b0 < 0x80 then Char.ofNat b0 :: utf8DecodeFrom 0 rest
    else if b0 < 0xE0 then
      Char.ofNat ((b0 - 0xC0) * 64 + (rest.getD 0 0x80 - 0x80)) :: utf8DecodeFrom 1 rest
    else if b0 < 0xF0 then
      Char.ofNat ((b0 - 0xE0) * 4096 + (rest.getD 0 0x80 - 0x80) * 64
        + (rest.getD 1 0x80 - 0x80)) :: utf8DecodeFrom 2 rest
    else
      Char.ofNat ((b0 - 0xF0) * 262144 + (rest.getD 0 0x80 - 0x80) * 4096
        + (rest.getD 1 0x80 - 0x80) * 64 + (rest.getD 2 0x80 - 0x80)) :: utf8DecodeFrom 3 rest

/-- The text of UTF-8 bytes. -/
def utf8Decode (bytes : List Nat) : List Char :=
  utf8DecodeFrom 0 bytes

/-- Decoding of one form-urlencoded name or value. -/
def formDecode (text : List Char) : String :=
  String.mk (utf8Decode (percentDecode text))

/-- The text before the first `sep` and the text after it (both empty
sides allowed; no `sep` leaves the second empty). -/
def cutAt (sep : Char) : List Char → List Char × List Char
  | [] => ([], [])
  | c :: rest => if c = sep then ([], rest) else (c :: (cutAt sep rest).1, (cutAt sep rest).2)

/-- The pieces of a text between the occurrences of `sep`. -/
def piecesBy (sep : Char) : List Char → List (List Char)
  | [] => [[]]
  | c :: rest =>
    if c = sep then [] :: piecesBy sep rest
    else
      match piecesBy sep rest with
      | [] => [[c]]
      | piece :: pieces => (c :: piece) :: pieces

/-- The `application/x-www-form-urlencoded` parser, by which the receiver of
a form body reads it: the body is split at `&`, empty pieces are skipped,
each piece is split at its first `=` into name and value, and both are
decoded. -/
def parseForm (body : String) : List (String × String) :=
  ((piecesBy '&' body.toList).filter fun piece => !piece.isEmpty).map fun piece =>
    (formDecode (cutAt '=' piece).1, formDecode (cutAt '=' piece).2)

/-- The body fields make a valid request for the handler: the required field
(for the token handler, a grant with its fields) is present as a non-empty
string. -/
def Handler.accepts : Handler → List (String × JsVal) → Prop
  | .audd, fields => ∃ s, textField "audio" fields s
  | .gemini, fields => ∃ s, textField "prompt" fields s
  | .spotifyToken, fields => ∃ g : Grant, g.carriedBy fields

/-- The validation failures of the handlers, each with its message: a
required field is missing, or the grant type is a truthy value other than the
two supported ones whose conversion to a string gives `shown`. -/
inductive Invalid : Handler → List (String × JsVal) → String → Prop where
  | audio {fields : List (String × JsVal)} :
      missing "audio" fields → Invalid .audd fields "Audio data is required"
  | prompt {fields : List (String × JsVal)} :
      missing "prompt" fields → Invalid .gemini fields "Prompt is required"
  | grantType {fields : List (String × JsVal)} :
      missing "grant_type" fields → Invalid .spotifyToken fields "grant_type is required"
  | authorizationCode {fields : List (String × JsVal)} :
      lookup "grant_type" fields = some (.str "authorization_code") →
      missing "code" fields ∨ missing "redirect_uri" fields ∨ missing "code_verifier" fields →
      Invalid .spotifyToken fields
        "code, redirect_uri, and code_verifier are required for authorization_code grant"
  | refreshToken {fields : List (String × JsVal)} :
      lookup "grant_type" fields = some (.str "refresh_token") →
      missing "refresh_token" fields →
      Invalid .spotifyToken fields "refresh_token is required for refresh_token grant"
  | unsupported {fields : List (String × JsVal)} (v : JsVal) (shown : String) :
      lookup "grant_type" fields = some v → truthy v = true →
      v ≠ .str "authorization_code" → v ≠ .str "refresh_token" →
      toJsString v = .ok shown →
      Invalid .spotifyToken fields ("Unsupported grant_type: " ++ shown)

/-- The upstream outcome is an exception `e`: `fetch` rejected with it, or
parsing the response as JSON did. -/
def UpstreamOutcome.raises (upstream : UpstreamOutcome) (e : JsError) : Prop :=
  upstream = .failed e ∨ ∃ s, upstream = .responded s (.threw e)

/-- A configuration with all four secrets set. -/
def sampleEnv : Env :=
  ⟨some "audd-key", some "gemini-key", some "I", some "S"⟩

/-- A configuration with no secret set. -/
def emptyEnv : Env :=
  ⟨none, none, none, none⟩

/-- An upstream that answers 400 with `{ error: 'invalid_grant' }`. -/
def invalidGrant : UpstreamOutcome :=
  .responded 400 (.ok (errorBody "invalid_grant"))

/-! ## Method handling and configuration errors -/

/-- C6: a request whose method is neither POST nor OPTIONS gets status 405
with body `{ error: 'Method not allowed' }` from each of the three handlers,
whatever the configuration and the body, and no outbound call is issued. -/
theorem other_method_not_allowed (h : Handler) (method : String) (body : JsVal) (env : Env)
    (upstream : UpstreamOutcome) (hpost : method ≠ "POST") (hopt : method ≠ "OPTIONS") :
    (h.run ⟨method, body⟩ env upstream).status = 405 ∧
      (h.run ⟨method, body⟩ env upstream).payload = some (errorBody "Method not allowed") ∧
      (h.run ⟨method, body⟩ env upstream).outbound = [] := by
  cases h <;> simp [Handler.run, audd, gemini, spotifyToken, hpost, hopt, reply]

/-- Witness of C6: a GET request to the audd handler. -/
theorem other_method_not_allowed_witness :
    (Handler.audd.run ⟨"GET", .null⟩ emptyEnv invalidGrant).status = 405 ∧
      (Handler.audd.run ⟨"GET", .null⟩ emptyEnv invalidGrant).payload
        = some (errorBody "Method not allowed") ∧
      (Handler.audd.run ⟨"GET", .null⟩ emptyEnv invalidGrant).outbound = [] :=
  other_method_not_allowed .audd "GET" .null emptyEnv invalidGrant (by decide) (by decide)

/-- C7: the gemini and spotify-token handlers answer every OPTIONS request
with status 200 and no body, issuing no outbound call (and no console
output), whatever the configuration and the request body. -/
theorem options_preflight_empty_200 (body : JsVal) (env : Env) (upstream : UpstreamOutcome) :
    gemini ⟨"OPTIONS", body⟩ env upstream = ⟨200, none, [], []⟩ ∧
      spotifyToken ⟨"OPTIONS", body⟩ env upstream = ⟨200, none, [], []⟩ := by
  simp [gemini, spotifyToken]

/-- C8: the audd handler has no pre-flight branch: it answers every OPTIONS
request with status 405 and `{ error: 'Method not allowed' }` (not with an
empty 200), issuing no outbound call. -/
theorem audd_options_not_allowed (body : JsVal) (env : Env) (upstream : UpstreamOutcome) :
    audd ⟨"OPTIONS", body⟩ env upstream = ⟨405, some (errorBody "Method not allowed"), [], []⟩ := by
  simp [audd, reply]

/-- C1: on a POST request, whatever its body, a handler one of whose
required secrets is absent or empty answers 500 with its fixed configuration
error and issues no outbound call. -/
theorem missing_secret_is_500 (h : Handler) (body : JsVal) (env : Env)
    (upstream : UpstreamOutcome) (hmiss : h.secretMissing env) :
    (h.run ⟨"POST", body⟩ env upstream).status = 500 ∧
      (h.run ⟨"POST", body⟩ env upstream).payload = some (errorBody h.configError) ∧
      (h.run ⟨"POST", body⟩ env upstream).outbound = [] := by
  cases h
  · rcases hmiss with hk | hk <;>
      simp [Handler.run, audd, reply, Handler.configError, hk]
  · rcases hmiss with hk | hk <;>
      simp [Handler.run, gemini, reply, Handler.configError, hk]
  · simp only [Handler.run, spotifyToken, Handler.configError]
    rcases hmiss with (hk | hk) | (hk | hk) <;>
      cases hid : env.SPOTIFY_CLIENT_ID <;> cases hsec : env.SPOTIFY_CLIENT_SECRET <;>
      simp_all

/-- Witness of C1: the token handler with an empty client secret. -/
theorem missing_secret_is_500_witness :
    (Handler.spotifyToken.run ⟨"POST", .obj []⟩ ⟨none, none, some "I", some ""⟩
        invalidGrant).status = 500 ∧
      (Handler.spotifyToken.run ⟨"POST", .obj []⟩ ⟨none, none, some "I", some ""⟩
        invalidGrant).payload = some (errorBody "Spotify credentials not configured") ∧
      (Handler.spotifyToken.run ⟨"POST", .obj []⟩ ⟨none, none, some "I", some ""⟩
        invalidGrant).outbound = [] :=
  missing_secret_is_500 .spotifyToken (.obj []) ⟨none, none, some "I", some ""⟩ invalidGrant
    (by decide)

/-! ## Relay of the upstream answer -/

/-- A configured token handler has a non-empty client id and secret. -/
theorem configured_spotifyToken {env : Env} (hcfg : Handler.spotifyToken.configured env) :
    ∃ I S, env.SPOTIFY_CLIENT_ID = some I ∧ env.SPOTIFY_CLIENT_SECRET = some S ∧
      I ≠ "" ∧ S ≠ "" := by
  simp only [Handler.configured, Handler.secretMissing, absentOrEmpty, not_or] at hcfg
  obtain ⟨⟨h1, h2⟩, h3, h4⟩ := hcfg
  cases hid : env.SPOTIFY_CLIENT_ID with
  | none => exact absurd hid h1
  | some I =>
    cases hsec : env.SPOTIFY_CLIENT_SECRET with
    | none => exact absurd hsec h3
    | some S =>
      refine ⟨I, S, rfl, rfl, ?_, ?_⟩
      · intro hI; exact h2 (by rw [hid, hI])
      · intro hS; exact h4 (by rw [hsec, hS])

/-- A configured audd handler has a non-empty key. -/
theorem configured_audd {env : Env} (hcfg : Handler.audd.configured env) :
    ∃ k, env.AUDD_API_KEY = some k ∧ k ≠ "" := by
  simp only [Handler.configured, Handler.secretMissing, absentOrEmpty, not_or] at hcfg
  cases hk : env.AUDD_API_KEY with
  | none => exact absurd hk hcfg.1
  | some k => exact ⟨k, rfl, fun h => hcfg.2 (by rw [hk, h])⟩

/-- A configured gemini handler has a non-empty key. -/
theorem configured_gemini {env : Env} (hcfg : Handler.gemini.configured env) :
    ∃ k, env.GEMINI_API_KEY = some k ∧ k ≠ "" := by
  simp only [Handler.configured, Handler.secretMissing, absentOrEmpty, not_or] at hcfg
  cases hk : env.GEMINI_API_KEY with
  | none => exact absurd hk hcfg.1
  | some k => exact ⟨k, rfl, fun h => hcfg.2 (by rw [hk, h])⟩

/-- The `try` block of the token handler on a valid request: the body is
built from the pairs of the grant and handed to the upstream call. -/
theorem spotifyTokenTry_of_grant (I S : String) (fields : List (String × JsVal)) (g : Grant)
    (upstream : UpstreamOutcome) (hg : g.carriedBy fields) :
    spotifyTokenTry I S (.obj fields) upstream
      = spotifyUpstream (g.pairs I S)
          [⟨false, [.text g.logLine]⟩] upstream := by
  cases g with
  | authorizationCode c u v =>
    obtain ⟨hgt, ⟨hc, hc0⟩, ⟨hu, hu0⟩, ⟨hv, hv0⟩⟩ := hg
    simp [spotifyTokenTry, destructure, getProp, hgt, hc, hu, hv, truthy, strictEqStr,
      urlSearchParams, toJsString, Grant.pairs, Grant.logLine, hc0, hu0, hv0]
  | refreshToken r =>
    obtain ⟨hgt, hr, hr0⟩ := hg
    simp [spotifyTokenTry, destructure, getProp, hgt, hr, truthy, strictEqStr,
      urlSearchParams, toJsString, Grant.pairs, Grant.logLine, hr0]

/-- C3: the token handler relays the upstream answer of a valid request: the
response body is the upstream JSON body, the status is 200 when the upstream
status is in 200..299 and the upstream status otherwise. -/
theorem token_relays_upstream_status (fields : List (String × JsVal)) (env : Env) (g : Grant)
    (s : Nat) (d : JsVal) (hcfg : Handler.spotifyToken.configured env)
    (hg : g.carriedBy fields) :
    (spotifyToken ⟨"POST", .obj fields⟩ env (.responded s (.ok d))).payload = some d ∧
      (spotifyToken ⟨"POST", .obj fields⟩ env (.responded s (.ok d))).status
        = if 200 ≤ s ∧ s ≤ 299 then 200 else s := by
  obtain ⟨I, S, hI, hS, hI0, hS0⟩ := configured_spotifyToken hcfg
  have hlt : s < 300 ↔ s ≤ 299 := by omega
  simp only [spotifyToken, hI, hS, spotifyTokenTry_of_grant I S fields g _ hg, spotifyUpstream,
    responseOk]
  by_cases hok : 200 ≤ s ∧ s ≤ 299
  · simp [hI0, hS0, hok, hlt]
  · simp [hI0, hS0, hok, hlt]

/-- Witness of C3: an upstream 400 with `{ error: 'invalid_grant' }` comes
back as a 400 with that body. -/
theorem token_relays_upstream_status_witness :
    (spotifyToken ⟨"POST", .obj [("grant_type", .str "refresh_token"),
        ("refresh_token", .str "abc")]⟩ sampleEnv
        (.responded 400 (.ok (errorBody "invalid_grant")))).payload
        = some (errorBody "invalid_grant") ∧
      (spotifyToken ⟨"POST", .obj [("grant_type", .str "refresh_token"),
        ("refresh_token", .str "abc")]⟩ sampleEnv
        (.responded 400 (.ok (errorBody "invalid_grant")))).status = 400 :=
  token_relays_upstream_status
    [("grant_type", .str "refresh_token"), ("refresh_token", .str "abc")] sampleEnv
    (.refreshToken "abc") 400 (errorBody "invalid_grant") (by decide)
    ⟨rfl, rfl, by decide⟩

/-! ## The form body -/

/-- A character is below the end of the code space. -/
theorem char_toNat_lt (c : Char) : c.toNat < 0x110000 := by
  have hv := c.valid
  unfold UInt32.isValidChar Nat.isValidChar at hv
  unfold Char.toNat
  omega

/-- A small number is the code of the character made of it. -/
theorem toNat_ofNat_of_lt {n : Nat} (h : n < 0xD800) : (Char.ofNat n).toNat = n := by
  have hv : n.isValidChar := Or.inl h
  simp only [Char.ofNat, hv, dite_true, Char.ofNatAux, Char.toNat]
  rfl

/-- The UTF-8 bytes of a code point are bytes. -/
theorem utf8Bytes_lt {n : Nat} (h : n < 0x110000) : ∀ b ∈ utf8Bytes n, b < 256 := by
  intro b hb
  unfold utf8Bytes at hb
  split_ifs at hb <;> simp at hb <;> omega

/-- Decoding reads back the UTF-8 bytes of a code point. -/
theorem utf8DecodeFrom_utf8Bytes {n : Nat} (h : n < 0x110000) (rest : List Nat) :
    utf8DecodeFrom 0 (utf8Bytes n ++ rest) = Char.ofNat n :: utf8DecodeFrom 0 rest := by
  unfold utf8Bytes
  split_ifs with h1 h2 h3
  · rw [List.singleton_append, utf8DecodeFrom, if_pos h1]
  · have a1 : ¬ (0xC0 + n / 64 < 0x80) := by omega
    have a2 : 0xC0 + n / 64 < 0xE0 := by omega
    have a3 : (0xC0 + n / 64 - 0xC0) * 64 + (0x80 + n % 64 - 0x80) = n := by omega
    simp only [List.cons_append, List.nil_append]
    rw [utf8DecodeFrom, if_neg a1, if_pos a2]
    simp only [List.getD_cons_zero, a3, utf8DecodeFrom]
  · have a1 : ¬ (0xE0 + n / 4096 < 0x80) := by omega
    have a2 : ¬ (0xE0 + n / 4096 < 0xE0) := by omega
    have a3 : 0xE0 + n / 4096 < 0xF0 := by omega
    have a4 : (0xE0 + n / 4096 - 0xE0) * 4096 + (0x80 + n / 64 % 64 - 0x80) * 64
        + (0x80 + n % 64 - 0x80) = n := by omega
    simp only [List.cons_append, List.nil_append]
    rw [utf8DecodeFrom, if_neg a1, if_neg a2, if_pos a3]
    simp only [List.getD_cons_zero, List.getD_cons_succ, a4, utf8DecodeFrom]
  · have a1 : ¬ (0xF0 + n / 262144 < 0x80) := by omega
    have a2 : ¬ (0xF0 + n / 262144 < 0xE0) := by omega
    have a3 : ¬ (0xF0 + n / 262144 < 0xF0) := by omega
    have a4 : (0xF0 + n / 262144 - 0xF0) * 262144 + (0x80 + n / 4096 % 64 - 0x80) * 4096
        + (0x80 + n / 64 % 64 - 0x80) * 64 + (0x80 + n % 64 - 0x80) = n := by omega
    simp only [List.cons_append, List.nil_append]
    rw [utf8DecodeFrom, if_neg a1, if_neg a2, if_neg a3]
    simp only [List.getD_cons_zero, List.getD_cons_succ, a4, utf8DecodeFrom]

/-- Decoding reads back the UTF-8 bytes of a text. -/
theorem utf8DecodeFrom_text (text : List Char) (rest : List Nat) :
    utf8DecodeFrom 0 (text.flatMap (fun c => utf8Bytes c.toNat) ++ rest)
      = text ++ utf8DecodeFrom 0 rest := by
  induction text with
  | nil => rfl
  | cons c text ih =>
    rw [List.flatMap_cons, List.append_assoc, utf8DecodeFrom_utf8Bytes (char_toNat_lt c), ih,
      Char.ofNat_toNat, List.cons_append]

/-- Percent-decoding reads back an encoded byte. -/
theorem percentDecodeFrom_encodeByte {b : Nat} (h : b < 256) (rest : List Char) :
    percentDecodeFrom 0 (encodeByte b ++ rest) = b :: percentDecodeFrom 0 rest := by
  interval_cases b <;> rfl

/-- Percent-decoding reads back encoded bytes. -/
theorem percentDecodeFrom_bytes (bytes : List Nat) (h : ∀ b ∈ bytes, b < 256)
    (rest : List Char) :
    percentDecodeFrom 0 (bytes.flatMap encodeByte ++ rest)
      = bytes ++ percentDecodeFrom 0 rest := by
  induction bytes with
  | nil => rfl
  | cons b bytes ih =>
    rw [List.flatMap_cons, List.append_assoc,
      percentDecodeFrom_encodeByte (h b (List.mem_cons_self b bytes)),
      ih (fun x hx => h x (List.mem_cons_of_mem b hx)), List.cons_append]

/-- Percent-decoding reads back the UTF-8 bytes of an encoded text. -/
theorem percentDecodeFrom_text (text : List Char) (rest : List Char) :
    percentDecodeFrom 0
        (text.flatMap (fun c => (utf8Bytes c.toNat).flatMap encodeByte) ++ rest)
      = text.flatMap (fun c => utf8Bytes c.toNat) ++ percentDecodeFrom 0 rest := by
  induction text with
  | nil => rfl
  | cons c text ih =>
    rw [List.flatMap_cons, List.append_assoc,
      percentDecodeFrom_bytes _ (utf8Bytes_lt (char_toNat_lt c)), ih, List.flatMap_cons,
      List.append_assoc]

/-- Decoding a form-urlencoded text gives the text back. -/
theorem formDecode_formEncode (s : String) : formDecode (formEncode s).toList = s := by
  have h1 := percentDecodeFrom_text s.toList []
  have h2 := utf8DecodeFrom_text s.toList []
  simp only [List.append_nil, percentDecodeFrom, utf8DecodeFrom] at h1 h2
  show String.mk (utf8DecodeFrom 0 (percentDecodeFrom 0
    (s.toList.flatMap fun c => (utf8Bytes c.toNat).flatMap encodeByte))) = s
  rw [h1, h2]
  cases s
  rfl


/-- An encoded byte has neither `&` nor `=` in it. -/
theorem encodeByte_clean {b : Nat} (h : b < 256) :
    ∀ c ∈ encodeByte b, c ≠ '&' ∧ c ≠ '=' := by
  interval_cases b <;> decide

/-- A form-urlencoded text has neither `&` nor `=` in it. -/
theorem formEncode_clean (s : String) : ∀ c ∈ (formEncode s).toList, c ≠ '&' ∧ c ≠ '=' := by
  intro c hc
  have hc2 : c ∈ s.toList.flatMap (fun x => (utf8Bytes x.toNat).flatMap encodeByte) := hc
  rw [List.mem_flatMap] at hc2
  obtain ⟨x, -, hx⟩ := hc2
  rw [List.mem_flatMap] at hx
  obtain ⟨b, hb, hcb⟩ := hx
  exact encodeByte_clean (utf8Bytes_lt (char_toNat_lt x) b hb) c hcb

/-- Cutting at the first separator of a text whose head part has none. -/
theorem cutAt_append (sep : Char) (xs ys : List Char) (h : ∀ c ∈ xs, c ≠ sep) :
    cutAt sep (xs ++ sep :: ys) = (xs, ys) := by
  induction xs with
  | nil => simp [cutAt]
  | cons x xs ih =>
    have hx : x ≠ sep := h x (List.mem_cons_self x xs)
    have ih2 := ih (fun c hc => h c (List.mem_cons_of_mem x hc))
    simp [cutAt, hx, ih2]

/-- A text without the separator is one piece. -/
theorem piecesBy_clean (sep : Char) (xs : List Char) (h : ∀ c ∈ xs, c ≠ sep) :
    piecesBy sep xs = [xs] := by
  induction xs with
  | nil => rfl
  | cons x xs ih =>
    have hx : x ≠ sep := h x (List.mem_cons_self x xs)
    have ih2 := ih (fun c hc => h c (List.mem_cons_of_mem x hc))
    simp [piecesBy, hx, ih2]

/-- The first piece of a text is what stands before its first separator. -/
theorem piecesBy_append (sep : Char) (xs ys : List Char) (h : ∀ c ∈ xs, c ≠ sep) :
    piecesBy sep (xs ++ sep :: ys) = xs :: piecesBy sep ys := by
  induction xs with
  | nil => simp [piecesBy]
  | cons x xs ih =>
    have hx : x ≠ sep := h x (List.mem_cons_self x xs)
    have ih2 := ih (fun c hc => h c (List.mem_cons_of_mem x hc))
    simp [piecesBy, hx, ih2]

/-- The characters of a serialized pair. -/
theorem pair_toList (k v : String) :
    (formEncode k ++ "=" ++ formEncode v).toList
      = (formEncode k).toList ++ '=' :: (formEncode v).toList := by
  simp [String.toList, String.data_append]

/-- A serialized pair has no `&` in it. -/
theorem pair_clean (k v : String) :
    ∀ c ∈ (formEncode k ++ "=" ++ formEncode v).toList, c ≠ '&' := by
  intro c hc
  rw [pair_toList, List.mem_append, List.mem_cons] at hc
  rcases hc with hc | hc | hc
  · exact (formEncode_clean k c hc).1
  · rw [hc]; decide
  · exact (formEncode_clean v c hc).1

/-- Parsing one serialized pair gives the pair back. -/
theorem parsePiece_pair (k v : String) :
    (formDecode (cutAt '=' (formEncode k ++ "=" ++ formEncode v).toList).1,
      formDecode (cutAt '=' (formEncode k ++ "=" ++ formEncode v).toList).2) = (k, v) := by
  rw [pair_toList, cutAt_append '=' _ _ (fun c hc => (formEncode_clean k c hc).2)]
  simp only [formDecode_formEncode]

/-- A serialized pair is not an empty piece. -/
theorem pair_nonempty (k v : String) :
    (!(formEncode k ++ "=" ++ formEncode v).toList.isEmpty) = true := by
  rw [pair_toList]; simp

/-- The form parser reads a serialized list of pairs back, pair by pair and
in order. -/
theorem parseForm_serializePairs (pairs : List (String × String)) :
    parseForm (serializePairs pairs) = pairs := by
  induction pairs with
  | nil => rfl
  | cons p rest ih =>
    obtain ⟨k, v⟩ := p
    cases rest with
    | nil =>
      show List.map _ (List.filter _ (piecesBy '&' (formEncode k ++ "=" ++ formEncode v).toList))
        = [(k, v)]
      rw [piecesBy_clean '&' _ (pair_clean k v), @List.filter_cons_of_pos (List Char) (fun piece => !piece.isEmpty) _ _
          (pair_nonempty k v),
        List.filter_nil, List.map_cons, List.map_nil, parsePiece_pair]
    | cons q rest =>
      have hlist : (serializePairs ((k, v) :: q :: rest)).toList
          = (formEncode k ++ "=" ++ formEncode v).toList
            ++ '&' :: (serializePairs (q :: rest)).toList := by
        simp [serializePairs, String.toList, String.data_append]
      show List.map _ (List.filter _ (piecesBy '&' (serializePairs ((k, v) :: q :: rest)).toList))
        = (k, v) :: q :: rest
      rw [hlist, piecesBy_append '&' _ _ (pair_clean k v),
        @List.filter_cons_of_pos (List Char) (fun piece => !piece.isEmpty) _ _
          (pair_nonempty k v), List.map_cons, parsePiece_pair]
      exact congrArg ((k, v) :: ·) ih

/-- A non-empty string field is a truthy value that converts to itself. -/
theorem shownField_of_textField {name : String} {fields : List (String × JsVal)} {s : String}
    (h : textField name fields s) : shownField name fields s :=
  ⟨.str s, h.1, by simp [truthy, h.2], rfl⟩

/-- The `try` block of the token handler on a request whose grant fields
convert to strings: the body is built from the pairs of the grant and handed
to the upstream call. -/
theorem spotifyTokenTry_of_sent (I S : String) (fields : List (String × JsVal)) (g : Grant)
    (upstream : UpstreamOutcome) (hg : g.sentBy fields) :
    spotifyTokenTry I S (.obj fields) upstream
      = spotifyUpstream (g.pairs I S) [⟨false, [.text g.logLine]⟩] upstream := by
  cases g with
  | authorizationCode c u v =>
    obtain ⟨hgt, ⟨vc, hc, hct, hcs⟩, ⟨vu, hu, hut, hus⟩, ⟨vv, hv, hvt, hvs⟩⟩ := hg
    have ht : truthy (.str "authorization_code") = true := rfl
    simp [spotifyTokenTry, destructure, getProp, hgt, hc, hu, hv, ht, strictEqStr,
      urlSearchParams, toJsString, Grant.pairs, Grant.logLine, hct, hut, hvt, hcs, hus, hvs]
  | refreshToken r =>
    obtain ⟨hgt, vr, hr, hrt, hrs⟩ := hg
    have ht : truthy (.str "refresh_token") = true := rfl
    simp [spotifyTokenTry, destructure, getProp, hgt, hr, ht, strictEqStr,
      urlSearchParams, toJsString, Grant.pairs, Grant.logLine, hrt, hrs]

/-- C5 (amended): with client id `I` and client secret `S` configured, a POST
request that names a grant and carries each field of the grant as a truthy
value that converts to a string causes exactly one outbound request, whatever
the upstream then does: a POST to the token endpoint with the form content
type, whose body is the form-urlencoded serialization of the pairs of the
grant (each field as the string it converts to), in their order; the form
parser reads exactly these pairs back from the body. -/
theorem token_outbound_request (fields : List (String × JsVal)) (env : Env) (I S : String)
    (g : Grant) (upstream : UpstreamOutcome)
    (hid : env.SPOTIFY_CLIENT_ID = some I) (hsec : env.SPOTIFY_CLIENT_SECRET = some S)
    (hI : I ≠ "") (hS : S ≠ "") (hg : g.sentBy fields) :
    (spotifyToken ⟨"POST", .obj fields⟩ env upstream).outbound
        = [⟨"https://accounts.spotify.com/api/token", "POST",
            [("Content-Type", "application/x-www-form-urlencoded")],
            .text (serializePairs (g.pairs I S))⟩] ∧
      parseForm (serializePairs (g.pairs I S)) = g.pairs I S := by
  refine ⟨?_, parseForm_serializePairs _⟩
  simp only [spotifyToken, hid, hsec, spotifyTokenTry_of_sent I S fields g _ hg, spotifyUpstream]
  rcases upstream with e | ⟨st, d | e⟩
  · simp [hI, hS]
  · cases hok : responseOk st <;> simp [hI, hS, hok]
  · simp [hI, hS]

/-- Witness of C5 (amended): a refresh token with a space, `&`, `=`, `/` and
a non-ASCII letter (sent with a stray `code`) goes out escaped, between the
grant type and the credentials; and the body of
`{ grant_type: 'refresh_token', refresh_token: 'abc' }` is
`grant_type=refresh_token&refresh_token=abc&client_id=I&client_secret=S`. -/
theorem token_outbound_request_witness :
    ((spotifyToken ⟨"POST", .obj [("grant_type", .str "refresh_token"),
        ("refresh_token", .str "a b&c=d/é"), ("code", .str "zzz")]⟩ sampleEnv
        invalidGrant).outbound
        = [⟨"https://accounts.spotify.com/api/token", "POST",
            [("Content-Type", "application/x-www-form-urlencoded")],
            .text "grant_type=refresh_token&refresh_token=a+b%26c%3Dd%2F%C3%A9&client_id=I&client_secret=S"⟩] ∧
      parseForm "grant_type=refresh_token&refresh_token=a+b%26c%3Dd%2F%C3%A9&client_id=I&client_secret=S"
        = [("grant_type", "refresh_token"), ("refresh_token", "a b&c=d/é"),
            ("client_id", "I"), ("client_secret", "S")]) ∧
      serializePairs (Grant.pairs "I" "S" (.refreshToken "abc"))
        = "grant_type=refresh_token&refresh_token=abc&client_id=I&client_secret=S" :=
  ⟨token_outbound_request
    [("grant_type", .str "refresh_token"), ("refresh_token", .str "a b&c=d/é"),
      ("code", .str "zzz")]
    sampleEnv "I" "S" (.refreshToken "a b&c=d/é") invalidGrant rfl rfl (by decide) (by decide)
    ⟨rfl, .str "a b&c=d/é", rfl, rfl, rfl⟩, by decide⟩

/-- C5 (as stated) fails: a refresh request whose `refresh_token` is present
and truthy, but an object with an own `toString` property, causes no outbound
request at all; the conversion throws inside the `try` and the answer is
500. -/
theorem token_request_not_always_sent :
    (spotifyToken ⟨"POST", .obj [("grant_type", .str "refresh_token"),
        ("refresh_token", .obj [("toString", .str "x")])]⟩ sampleEnv invalidGrant).outbound = [] ∧
      (spotifyToken ⟨"POST", .obj [("grant_type", .str "refresh_token"),
        ("refresh_token", .obj [("toString", .str "x")])]⟩ sampleEnv invalidGrant).status
        = 500 :=
  ⟨rfl, rfl⟩

/-- C4: the audd and gemini handlers answer a valid request with status 200
and the parsed upstream body, whatever the upstream status is. -/
theorem audd_gemini_relay_at_200 (h : Handler) (fields : List (String × JsVal)) (env : Env)
    (s : Nat) (d : JsVal) (hh : h ≠ .spotifyToken) (hcfg : h.configured env)
    (hacc : h.accepts fields) :
    (h.run ⟨"POST", .obj fields⟩ env (.responded s (.ok d))).status = 200 ∧
      (h.run ⟨"POST", .obj fields⟩ env (.responded s (.ok d))).payload = some d := by
  cases h with
  | audd =>
    obtain ⟨k, hk, hk0⟩ := configured_audd hcfg
    obtain ⟨a, ha, ha0⟩ := hacc
    simp [Handler.run, audd, hk, hk0, auddTry, destructure, getProp, ha, truthy, ha0,
      formDataAppend]
  | gemini =>
    obtain ⟨k, hk, hk0⟩ := configured_gemini hcfg
    obtain ⟨a, ha, ha0⟩ := hacc
    simp [Handler.run, gemini, hk, hk0, geminiTry, destructure, getProp, ha, truthy, ha0]
  | spotifyToken => exact absurd rfl hh

/-- Witness of C4: an error object reported by the audio upstream with
status 500 is forwarded at status 200. -/
theorem audd_gemini_relay_at_200_witness :
    (Handler.audd.run ⟨"POST", .obj [("audio", .str "QUJD")]⟩ sampleEnv
        (.responded 500 (.ok (errorBody "upstream")))).status = 200 ∧
      (Handler.audd.run ⟨"POST", .obj [("audio", .str "QUJD")]⟩ sampleEnv
        (.responded 500 (.ok (errorBody "upstream")))).payload = some (errorBody "upstream") :=
  audd_gemini_relay_at_200 .audd [("audio", .str "QUJD")] sampleEnv 500 (errorBody "upstream")
    (by decide) (by decide) ⟨"QUJD", rfl, by decide⟩

/-! ## Validation errors -/

/-- Reading a missing field gives a falsy value. -/
theorem truthy_getProp_of_missing {name : String} {fields : List (String × JsVal)}
    (hm : missing name fields) : truthy (getProp name (.obj fields)) = false := by
  unfold missing at hm
  simp only [getProp]
  cases hl : lookup name fields with
  | none => rfl
  | some v => rw [hl] at hm; exact hm

/-- Strict equality with a string literal holds of that string only. -/
theorem strictEqStr_eq_false {v : JsVal} {lit : String} (hne : v ≠ .str lit) :
    strictEqStr v lit = false := by
  cases v <;> simp [strictEqStr]
  rename_i s
  intro hs
  exact hne (by rw [hs])

/-- C2 (amended): on a POST request with an object body to a configured
handler, a missing required field (absent, or present with a falsy value),
and a grant type that is truthy, is neither of the two supported ones and
converts to the string `shown`, are answered with status 400 and the message
of the failure (`Unsupported grant_type: shown` for the latter), and no
outbound call is issued. -/
theorem validation_error_is_400 (h : Handler) (fields : List (String × JsVal)) (env : Env)
    (upstream : UpstreamOutcome) (msg : String) (hcfg : h.configured env)
    (hinv : Invalid h fields msg) :
    (h.run ⟨"POST", .obj fields⟩ env upstream).status = 400 ∧
      (h.run ⟨"POST", .obj fields⟩ env upstream).payload = some (errorBody msg) ∧
      (h.run ⟨"POST", .obj fields⟩ env upstream).outbound = [] := by
  cases hinv with
  | audio hm =>
    obtain ⟨k, hk, hk0⟩ := configured_audd hcfg
    simp [Handler.run, audd, hk, hk0, auddTry, destructure, truthy_getProp_of_missing hm]
  | prompt hm =>
    obtain ⟨k, hk, hk0⟩ := configured_gemini hcfg
    simp [Handler.run, gemini, hk, hk0, geminiTry, destructure, truthy_getProp_of_missing hm]
  | grantType hm =>
    obtain ⟨I, S, hI, hS, hI0, hS0⟩ := configured_spotifyToken hcfg
    simp [Handler.run, spotifyToken, hI, hS, hI0, hS0, spotifyTokenTry, destructure,
      truthy_getProp_of_missing hm]
  | authorizationCode hgt hm =>
    obtain ⟨I, S, hI, hS, hI0, hS0⟩ := configured_spotifyToken hcfg
    have hg : getProp "grant_type" (.obj fields) = .str "authorization_code" := by
      simp [getProp, hgt]
    have ht : truthy (.str "authorization_code") = true := rfl
    rcases hm with hm | hm | hm <;>
      simp [Handler.run, spotifyToken, hI, hS, hI0, hS0, spotifyTokenTry, destructure, hg,
        ht, strictEqStr, truthy_getProp_of_missing hm]
  | refreshToken hgt hm =>
    obtain ⟨I, S, hI, hS, hI0, hS0⟩ := configured_spotifyToken hcfg
    have hg : getProp "grant_type" (.obj fields) = .str "refresh_token" := by
      simp [getProp, hgt]
    have ht : truthy (.str "refresh_token") = true := rfl
    simp [Handler.run, spotifyToken, hI, hS, hI0, hS0, spotifyTokenTry, destructure, hg,
      ht, strictEqStr, truthy_getProp_of_missing hm]
  | unsupported v shown hgt htruthy hne1 hne2 hshown =>
    obtain ⟨I, S, hI, hS, hI0, hS0⟩ := configured_spotifyToken hcfg
    have hg : getProp "grant_type" (.obj fields) = v := by
      simp [getProp, hgt]
    simp [Handler.run, spotifyToken, hI, hS, hI0, hS0, spotifyTokenTry, destructure, hg,
      htruthy, strictEqStr_eq_false hne1, strictEqStr_eq_false hne2, hshown]

/-- Witness of C2 (amended): `{ grant_type: 'bogus' }` is answered 400 with
`Unsupported grant_type: bogus`, and the number `1e21` as grant type with
`Unsupported grant_type: 1e+21`. -/
theorem validation_error_is_400_witness :
    ((Handler.spotifyToken.run ⟨"POST", .obj [("grant_type", .str "bogus")]⟩ sampleEnv
        invalidGrant).status = 400 ∧
      (Handler.spotifyToken.run ⟨"POST", .obj [("grant_type", .str "bogus")]⟩ sampleEnv
        invalidGrant).payload = some (errorBody "Unsupported grant_type: bogus") ∧
      (Handler.spotifyToken.run ⟨"POST", .obj [("grant_type", .str "bogus")]⟩ sampleEnv
        invalidGrant).outbound = []) ∧
    ((Handler.spotifyToken.run ⟨"POST", .obj [("grant_type", .num (.finite false 1 22))]⟩
        sampleEnv invalidGrant).status = 400 ∧
      (Handler.spotifyToken.run ⟨"POST", .obj [("grant_type", .num (.finite false 1 22))]⟩
        sampleEnv invalidGrant).payload = some (errorBody "Unsupported grant_type: 1e+21") ∧
      (Handler.spotifyToken.run ⟨"POST", .obj [("grant_type", .num (.finite false 1 22))]⟩
        sampleEnv invalidGrant).outbound = []) :=
  ⟨validation_error_is_400 .spotifyToken [("grant_type", .str "bogus")] sampleEnv invalidGrant _
      (by decide)
      (Invalid.unsupported (.str "bogus") "bogus" rfl rfl (by simp) (by simp) rfl),
    validation_error_is_400 .spotifyToken [("grant_type", .num (.finite false 1 22))] sampleEnv
      invalidGrant _ (by decide)
      (Invalid.unsupported (.num (.finite false 1 22)) "1e+21" rfl rfl (by simp) (by simp) rfl)⟩

/-- C2 (as stated) fails: a grant type that is an object with an own
`toString` property is a value other than the two supported ones, yet the
answer is 500 (its conversion to a string throws inside the `try`); and the
empty string, also such a value, is reported as a missing `grant_type`, not
as an unsupported one. -/
theorem unsupported_grant_type_not_always_400 :
    (spotifyToken ⟨"POST", .obj [("grant_type", .obj [("toString", .num (.finite false 1 1))])]⟩ sampleEnv
        invalidGrant).status = 500 ∧
      (spotifyToken ⟨"POST", .obj [("grant_type", .obj [("toString", .num (.finite false 1 1))])]⟩ sampleEnv
        invalidGrant).payload
        = some (.obj [("error", .str "Internal server error"),
            ("message", .str "Cannot convert object to primitive value")]) ∧
      (spotifyToken ⟨"POST", .obj [("grant_type", .str "")]⟩ sampleEnv invalidGrant).payload
        = some (errorBody "grant_type is required") := by
  refine ⟨rfl, rfl, rfl⟩

/-! ## Exceptions -/

/-- When the `try` block of `audd.js` reaches the upstream call and that
raises, the block ends with the exception. -/
theorem auddTry_raises (k : String) (body : JsVal) (upstream : UpstreamOutcome) (e : JsError)
    (hcall : (auddTry k body upstream).outbound ≠ []) (hup : upstream.raises e) :
    (auddTry k body upstream).completion = .threw e := by
  unfold auddTry at hcall ⊢
  cases hd : destructure "audio" body with
  | threw e0 => simp [hd] at hcall
  | ok u =>
    cases ht : truthy (getProp "audio" body) with
    | false => simp [hd, ht] at hcall
    | true =>
      cases ha : formDataAppend (getProp "audio" body) with
      | threw e0 => simp [hd, ht, ha] at hcall
      | ok appended => rcases hup with rfl | ⟨s, rfl⟩ <;> simp [ht, ha]

/-- When the `try` block of `gemini.js` reaches the upstream call and that
raises, the block ends with the exception. -/
theorem geminiTry_raises (k : String) (body : JsVal) (upstream : UpstreamOutcome) (e : JsError)
    (hcall : (geminiTry k body upstream).outbound ≠ []) (hup : upstream.raises e) :
    (geminiTry k body upstream).completion = .threw e := by
  unfold geminiTry at hcall ⊢
  cases hd : destructure "prompt" body with
  | threw e0 => simp [hd] at hcall
  | ok u =>
    cases ht : truthy (getProp "prompt" body) with
    | false => simp [hd, ht] at hcall
    | true => rcases hup with rfl | ⟨s, rfl⟩ <;> simp [ht]

/-- The upstream step of the token handler ends with the exception the
upstream raises. -/
theorem spotifyUpstream_raises (requestBody : List (String × String)) (logged : List LogEntry)
    (upstream : UpstreamOutcome) (e : JsError) (hup : upstream.raises e) :
    (spotifyUpstream requestBody logged upstream).completion = .threw e := by
  rcases hup with rfl | ⟨s, rfl⟩ <;> simp [spotifyUpstream]

/-- The `try` block of `spotify-token.js` either issues no outbound request
or is the upstream step on some built body. -/
theorem spotifyTokenTry_cases (I S : String) (body : JsVal) (upstream : UpstreamOutcome) :
    (spotifyTokenTry I S body upstream).outbound = [] ∨
      ∃ requestBody logged,
        spotifyTokenTry I S body upstream = spotifyUpstream requestBody logged upstream := by
  unfold spotifyTokenTry
  dsimp only
  repeat' split
  all_goals first
    | (left; rfl)
    | (right; exact ⟨_, _, rfl⟩)

/-- When the `try` block of `spotify-token.js` reaches the upstream call and
that raises, the block ends with the exception. -/
theorem spotifyTokenTry_raises (I S : String) (body : JsVal) (upstream : UpstreamOutcome)
    (e : JsError) (hcall : (spotifyTokenTry I S body upstream).outbound ≠ [])
    (hup : upstream.raises e) :
    (spotifyTokenTry I S body upstream).completion = .threw e := by
  rcases spotifyTokenTry_cases I S body upstream with hnone | ⟨requestBody, logged, heq⟩
  · exact absurd hnone hcall
  · rw [heq]; exact spotifyUpstream_raises _ _ _ _ hup

/-- The outbound requests of a configured audd invocation are those of its
`try` block. -/
theorem audd_outbound {env : Env} {k : String} (body : JsVal) (upstream : UpstreamOutcome)
    (hk : env.AUDD_API_KEY = some k) (hk0 : k ≠ "") :
    (audd ⟨"POST", body⟩ env upstream).outbound = (auddTry k body upstream).outbound := by
  simp only [audd, hk]
  cases hc : (auddTry k body upstream).completion <;> simp [hk0]

/-- The outbound requests of a configured gemini invocation are those of its
`try` block. -/
theorem gemini_outbound {env : Env} {k : String} (body : JsVal) (upstream : UpstreamOutcome)
    (hk : env.GEMINI_API_KEY = some k) (hk0 : k ≠ "") :
    (gemini ⟨"POST", body⟩ env upstream).outbound = (geminiTry k body upstream).outbound := by
  simp only [gemini, hk]
  cases hc : (geminiTry k body upstream).completion <;> simp [hk0]

/-- The outbound requests of a configured token invocation are those of its
`try` block. -/
theorem spotifyToken_outbound {env : Env} {I S : String} (body : JsVal)
    (upstream : UpstreamOutcome) (hI : env.SPOTIFY_CLIENT_ID = some I)
    (hS : env.SPOTIFY_CLIENT_SECRET = some S) (hI0 : I ≠ "") (hS0 : S ≠ "") :
    (spotifyToken ⟨"POST", body⟩ env upstream).outbound
      = (spotifyTokenTry I S body upstream).outbound := by
  simp only [spotifyToken, hI, hS]
  cases hc : (spotifyTokenTry I S body upstream).completion <;> simp [hI0, hS0]

/-- C9: on a POST request to a configured handler, an exception `e` raised
while reading the body fields, or by the upstream call the handler performed
(`fetch` rejecting, or the response failing to parse as JSON), is answered
with status 500 and the generic body of the handler:
`{ error: 'Failed to process request' }` for audd and gemini,
`{ error: 'Internal server error', message: e.message }` for the token
handler. -/
theorem exception_is_generic_500 (h : Handler) (body : JsVal) (env : Env)
    (upstream : UpstreamOutcome) (e : JsError) (hcfg : h.configured env)
    (hsrc : destructure h.firstField body = .threw e ∨
      ((h.run ⟨"POST", body⟩ env upstream).outbound ≠ [] ∧ upstream.raises e)) :
    (h.run ⟨"POST", body⟩ env upstream).status = 500 ∧
      (h.run ⟨"POST", body⟩ env upstream).payload = some (h.internalError e) := by
  cases h with
  | audd =>
    obtain ⟨k, hk, hk0⟩ := configured_audd hcfg
    have hc : (auddTry k body upstream).completion = .threw e := by
      rcases hsrc with hd | ⟨hcall, hup⟩
      · simp only [Handler.firstField] at hd
        simp [auddTry, hd]
      · rw [Handler.run, audd_outbound body upstream hk hk0] at hcall
        exact auddTry_raises k body upstream e hcall hup
    simp [Handler.run, audd, hk, hk0, hc, Handler.internalError]
  | gemini =>
    obtain ⟨k, hk, hk0⟩ := configured_gemini hcfg
    have hc : (geminiTry k body upstream).completion = .threw e := by
      rcases hsrc with hd | ⟨hcall, hup⟩
      · simp only [Handler.firstField] at hd
        simp [geminiTry, hd]
      · rw [Handler.run, gemini_outbound body upstream hk hk0] at hcall
        exact geminiTry_raises k body upstream e hcall hup
    simp [Handler.run, gemini, hk, hk0, hc, Handler.internalError]
  | spotifyToken =>
    obtain ⟨I, S, hI, hS, hI0, hS0⟩ := configured_spotifyToken hcfg
    have hc : (spotifyTokenTry I S body upstream).completion = .threw e := by
      rcases hsrc with hd | ⟨hcall, hup⟩
      · simp only [Handler.firstField] at hd
        simp [spotifyTokenTry, hd]
      · rw [Handler.run, spotifyToken_outbound body upstream hI hS hI0 hS0] at hcall
        exact spotifyTokenTry_raises I S body upstream e hcall hup
    simp [Handler.run, spotifyToken, hI, hS, hI0, hS0, hc, Handler.internalError]

/-- Witness of C9: a transport failure of the token upstream is answered 500
with the message of the exception. -/
theorem exception_is_generic_500_witness :
    (Handler.spotifyToken.run ⟨"POST", .obj [("grant_type", .str "refresh_token"),
        ("refresh_token", .str "abc")]⟩ sampleEnv
        (.failed ⟨"FetchError", "socket hang up"⟩)).status = 500 ∧
      (Handler.spotifyToken.run ⟨"POST", .obj [("grant_type", .str "refresh_token"),
        ("refresh_token", .str "abc")]⟩ sampleEnv
        (.failed ⟨"FetchError", "socket hang up"⟩)).payload
        = some (Handler.spotifyToken.internalError ⟨"FetchError", "socket hang up"⟩) :=
  exception_is_generic_500 .spotifyToken
    (.obj [("grant_type", .str "refresh_token"), ("refresh_token", .str "abc")]) sampleEnv
    (.failed ⟨"FetchError", "socket hang up"⟩) ⟨"FetchError", "socket hang up"⟩ (by decide)
    (Or.inr ⟨by simp [Handler.run, spotifyToken, sampleEnv, spotifyTokenTry, destructure,
      getProp, lookup, truthy, strictEqStr, urlSearchParams, toJsString, spotifyUpstream],
      Or.inl rfl⟩)

/-! ## Secrets in the console output -/

/-- C10: the key of the gemini handler reaches the console.  The handler
puts the key in the URL of its request; when that request fails, node-fetch
rejects with an error whose message names the URL, and the `catch` logs the
error: with the key `gemini-key` the logged message ends the URL with
`key=gemini-key`, and with another key the logged value is another one. -/
theorem gemini_logs_key_on_fetch_failure :
    (gemini ⟨"POST", .obj [("prompt", .str "hello")]⟩ sampleEnv
        (.failed (fetchError
          "https://generativelanguage.googleapis.com/v1/models/gemini-pro:generateContent?key=gemini-key"
          "socket hang up"))).outbound
        = [⟨"https://generativelanguage.googleapis.com/v1/models/gemini-pro:generateContent?key=gemini-key",
            "POST", [("Content-Type", "application/json")],
            .json (.obj [("contents", .arr [.obj [("parts",
              .arr [.obj [("text", .str "hello")]])]])])⟩] ∧
      (gemini ⟨"POST", .obj [("prompt", .str "hello")]⟩ sampleEnv
        (.failed (fetchError
          "https://generativelanguage.googleapis.com/v1/models/gemini-pro:generateContent?key=gemini-key"
          "socket hang up"))).logs
        = [⟨true, [.text "Gemini API Error:", .error ⟨"FetchError",
            "request to https://generativelanguage.googleapis.com/v1/models/gemini-pro:generateContent?key=gemini-key failed, reason: socket hang up"⟩]⟩] ∧
      (gemini ⟨"POST", .obj [("prompt", .str "hello")]⟩ ⟨none, some "other-key", none, none⟩
        (.failed (fetchError
          "https://generativelanguage.googleapis.com/v1/models/gemini-pro:generateContent?key=other-key"
          "socket hang up"))).logs
        = [⟨true, [.text "Gemini API Error:", .error ⟨"FetchError",
            "request to https://generativelanguage.googleapis.com/v1/models/gemini-pro:generateContent?key=other-key failed, reason: socket hang up"⟩]⟩] :=
  ⟨rfl, rfl, rfl⟩

end Proxy
